import Mathlib

/-!
Verification of the resilient-forwarding core of the sixyao-api repository.

The repository has two FastAPI handlers:
* `scripts/simple_api_server.py` : `POST /divine` — retry loop with exponential
  backoff against the Coze V3 chat-completions upstream (Shape B payloads),
  degrading every upstream-caused failure into a 200 body with `success = false`.
* `scripts/doubao_api_server.py` : `POST /api/divine` — single upstream call
  against the Coze V2 chat upstream (Shape A payloads), propagating failures as
  HTTP error statuses.

The handlers are embedded as pure Lean functions.  JSON bodies are modelled by
`JVal`; the Python-level dynamic operations the handlers perform on parsed JSON
(`in`, `len`, subscripting, `.get`, truthiness, `!= 0`) are modelled by the
`py*` helpers below, with Python exceptions modelled as `Except.error` carrying
the `str(e)` text.  Network effects are modelled by passing in, per attempt, the
outcome the upstream would produce (`Upstream`); the handler result records the
HTTP outcome together with the number of upstream calls made and the list of
backoff sleeps performed, in order.
-/

/-- A parsed JSON value, as produced by `response.json()`. -/
inductive JVal where
  | null
  | bool (b : Bool)
  | num (n : Int)
  | str (s : String)
  | arr (xs : List JVal)
  | obj (fs : List (String × JVal))

namespace JVal

/-- Python truthiness (`if content:`): `None`, `False`, `0`, `""`, `[]`, `{}`
are falsy, everything else is truthy. -/
def jTruthy : JVal → Bool
  | .null => false
  | .bool b => b
  | .num n => n != 0
  | .str s => !s.isEmpty
  | .arr xs => !xs.isEmpty
  | .obj fs => !fs.isEmpty

/-- Python `v == 0` (used for `result["code"] != 0`): the int `0` and `False`
compare equal to `0`; every other JSON value does not. -/
def pyEqZero : JVal → Bool
  | .num 0 => true
  | .bool false => true
  | _ => false

/-- Python `v == needle` for a string literal `needle`. -/
def isStrEq (needle : String) : JVal → Bool
  | .str s => s = needle
  | _ => false

end JVal

/-- Does `needle` occur as a substring of `hay`?  (Python `needle in hay` on a
string.) -/
def strContains (hay needle : String) : Bool :=
  (hay.splitOn needle).length > 1

/- Python string rendering `str(v)` / `repr(v)` of a JSON value, as used by
f-string interpolation.  Scalar cases are exact; container rendering follows
Python's repr layout. -/
mutual

def pyRepr : JVal → String
  | .null => "None"
  | .bool true => "True"
  | .bool false => "False"
  | .num n => toString n
  | .str s => "\x27" ++ s ++ "\x27"
  | .arr xs => "[" ++ pyReprList xs ++ "]"
  | .obj fs => "\x7b" ++ pyReprObj fs ++ "\x7d"

def pyReprList : List JVal → String
  | [] => ""
  | [x] => pyRepr x
  | x :: xs => pyRepr x ++ ", " ++ pyReprList xs

def pyReprObj : List (String × JVal) → String
  | [] => ""
  | [(k, v)] => "\x27" ++ k ++ "\x27: " ++ pyRepr v
  | (k, v) :: fs => "\x27" ++ k ++ "\x27: " ++ pyRepr v ++ ", " ++ pyReprObj fs

end

/-- `str(v)`: like `repr` except a top-level string renders without quotes. -/
def pyStr : JVal → String
  | .str s => s
  | v => pyRepr v

/-- Python `needle in v` for a string `needle`: key membership on a dict,
element membership on a list, substring test on a string, `TypeError`
otherwise. -/
def pyIn (needle : String) : JVal → Except String Bool
  | .obj fs => .ok (List.lookup needle fs).isSome
  | .arr xs => .ok (xs.any (JVal.isStrEq needle))
  | .str s => .ok (strContains s needle)
  | _ => .error "argument of type is not iterable"

/-- Python `len(v)`: length of a string, list or dict; `TypeError` otherwise. -/
def pyLen : JVal → Except String Nat
  | .str s => .ok s.length
  | .arr xs => .ok xs.length
  | .obj fs => .ok fs.length
  | _ => .error "object has no len()"

/-- Python `v[k]` for a string key `k`: dict lookup (raising `KeyError`, whose
`str` is the quoted key), `TypeError` on lists/strings (indices must be
integers) and on non-subscriptable values. -/
def pySub (v : JVal) (k : String) : Except String JVal :=
  match v with
  | .obj fs =>
    match List.lookup k fs with
    | some w => .ok w
    | none => .error ("\x27" ++ k ++ "\x27")
  | .arr _ => .error "list indices must be integers or slices, not str"
  | .str _ => .error "string indices must be integers"
  | _ => .error "object is not subscriptable"

/-- Python `v[0]`: first element of a list (or 1-character string of a string);
`KeyError` on a dict with string keys, `TypeError` otherwise. -/
def pyIdx0 : JVal → Except String JVal
  | .arr (x :: _) => .ok x
  | .arr [] => .error "list index out of range"
  | .str s => if s.isEmpty then .error "string index out of range" else .ok (.str (s.take 1))
  | .obj _ => .error "0"
  | _ => .error "object is not subscriptable"

/-- Python `v.get(k, d)`: only dicts have `.get`; `AttributeError` otherwise. -/
def pyGetD (v : JVal) (k : String) (d : JVal) : Except String JVal :=
  match v with
  | .obj fs => .ok ((List.lookup k fs).getD d)
  | _ => .error "object has no attribute get"

/-- Python `not s.strip()` composed: is the string all-whitespace after
stripping, i.e. does `.strip()` leave nothing?  (`str.strip()` removes leading
and trailing whitespace, so the stripped string is empty exactly when every
character is whitespace.) -/
def pyStripIsEmpty (s : String) : Bool :=
  s.data.all Char.isWhitespace

/-- `if not COZE_API_KEY:` — the credential counts as configured when the
environment variable is set to a non-empty string. -/
def keyConfigured : Option String → Bool
  | none => false
  | some s => !s.isEmpty

/-- One upstream interaction, as seen by `client.post`:
either the request itself fails (`httpx.TimeoutException` is a subclass of
`httpx.RequestError`, so the two error constructors are distinguished only
where a handler catches them separately), or an HTTP response arrives carrying
a status code, the raw body text, and the result of `response.json()` on it
(`Except.error` = the `str` of the JSON-decode exception). -/
inductive Upstream where
  | timeoutError (msg : String)
  | requestError (msg : String)
  | resp (status : Nat) (text : String) (body : Except String JVal)

/-! ## simple_api_server.py, `POST /divine` -/

/-- Classification of one loop iteration of `divine`
(`scripts/simple_api_server.py`, lines 52–100), after the upstream interaction:
* `success c` — line 81: `return {"success": True, "final_result": content}`;
* `fallthrough` — the 200-with-empty-`content` case: no `return`, no `raise`,
  the `for` loop silently proceeds to the next iteration (no sleep);
* `fatal m` — a plain `Exception` with message `m` was raised inside the loop
  body; it is not an `httpx.RequestError`, so it escapes the loop to the outer
  handler at lines 107–114;
* `transient m` — the retry path (non-200 status, or `httpx.RequestError`):
  with attempts remaining, sleep `2**retry` and continue; on the last attempt,
  raise a plain `Exception` with message `m`. -/
inductive Step where
  | success (content : JVal)
  | fallthrough
  | fatal (msg : String)
  | transient (msg : String)

/-- The message of the `Exception` a `fatal`/`transient` step raises. -/
def Step.excMsg : Step → String
  | .fatal m => m
  | .transient m => m
  | _ => ""

/-- Is the step the retry path? -/
def Step.isTransient : Step → Bool
  | .transient _ => true
  | _ => false

/-- Lines 70–86 of `simple_api_server.py`: what the loop body does with a
parsed 200 body `j`:

```
result = j
if "code" in result and result["code"] != 0:
    raise Exception(f"扣子平台故障：{result.get('msg', '未知错误')}")
if "choices" in result and len(result["choices"]) > 0:
    content = result["choices"][0]["message"]["content"]
    if content: return success(content)    # else: fall through, loop continues
else:
    raise Exception("扣子返回无有效结果")
```

Any Python exception raised by the dynamic operations (`TypeError`,
`KeyError`, …) is likewise a non-`RequestError` exception and escapes as
`fatal`. -/
def stepOfBody (j : JVal) : Step :=
  match pyIn "code" j with
  | .error e => .fatal e
  | .ok codeIn =>
    match (if codeIn then (pySub j "code").map (fun v => !v.pyEqZero) else .ok false :
        Except String Bool) with
    | .error e => .fatal e
    | .ok true =>
      match pyGetD j "msg" (.str "未知错误") with
      | .error e => .fatal e
      | .ok m => .fatal ("扣子平台故障：" ++ pyStr m)
    | .ok false =>
      match pyIn "choices" j with
      | .error e => .fatal e
      | .ok false => .fatal "扣子返回无有效结果"
      | .ok true =>
        match pySub j "choices" with
        | .error e => .fatal e
        | .ok ch =>
          match pyLen ch with
          | .error e => .fatal e
          | .ok 0 => .fatal "扣子返回无有效结果"
          | .ok (_ + 1) =>
            match pyIdx0 ch >>= (pySub · "message") >>= (pySub · "content") with
            | .error e => .fatal e
            | .ok content => if content.jTruthy then .success content else .fallthrough

/-- Classification of one full attempt (lines 53–100): any `httpx.RequestError`
(timeouts included — `simple_api_server.py` catches the whole class at line 95)
is the retry path; a non-200 status is the retry path; a 200 response is
parsed (`response.json()`, whose failure is a non-`RequestError` exception and
escapes) and handed to `stepOfBody`. -/
def stepOf : Upstream → Step
  | .timeoutError m => .transient ("网络请求失败：" ++ m)
  | .requestError m => .transient ("网络请求失败：" ++ m)
  | .resp status _ body =>
    if status = 200 then
      match body with
      | .error e => .fatal e
      | .ok j => stepOfBody j
    else .transient ("扣子API返回错误状态码：" ++ toString status)

/-- Outcome of the `for retry in range(retry_times + 1)` loop. -/
inductive LoopOut where
  | success (content : JVal)
  | exc (msg : String)

/-- The retry loop of `divine` (lines 52–103).  `retry` is the current loop
index; `left` is the number of iterations still allowed after this one, so
`left = retry_times - retry` and the code's guard `retry < retry_times` is
exactly `left > 0`.  Returns the loop outcome, the number of upstream calls
made, and the backoff sleeps performed, in order.  The `exc` message on normal
loop exit is line 103's `raise Exception("多次调用扣子API失败，请稍后再试")`. -/
def loopAux (u : Nat → Upstream) : Nat → Nat → LoopOut × Nat × List Nat
  | retry, 0 =>
    match stepOf (u retry) with
    | .success c => (.success c, 1, [])
    | .fatal m => (.exc m, 1, [])
    | .fallthrough => (.exc "多次调用扣子API失败，请稍后再试", 1, [])
    | .transient m => (.exc m, 1, [])
  | retry, l + 1 =>
    match stepOf (u retry) with
    | .success c => (.success c, 1, [])
    | .fatal m => (.exc m, 1, [])
    | .fallthrough =>
      let r := loopAux u (retry + 1) l
      (r.1, r.2.1 + 1, r.2.2)
    | .transient _ =>
      let r := loopAux u (retry + 1) l
      (r.1, r.2.1 + 1, 2 ^ retry :: r.2.2)

/-- The whole retry loop, starting at `retry = 0` with `retry_times` retries
still allowed. -/
def runLoop (u : Nat → Upstream) (retryTimes : Nat) : LoopOut × Nat × List Nat :=
  loopAux u 0 retryTimes

/-- The JSON body `divine` returns on its 200 path. -/
structure SimpleBody where
  success : Bool
  final_result : JVal
  error_detail : Option String

/-- The externally observable outcome of `divine`: a propagated
`HTTPException` (status + detail) or a 200 response with a JSON body. -/
inductive SimpleOut where
  | httpError (status : Nat) (detail : String)
  | ok (body : SimpleBody)

/-- Result of one `divine` call together with its observable side effects:
number of upstream calls and backoff sleeps, in order. -/
structure SimpleRun where
  out : SimpleOut
  attempts : Nat
  sleeps : List Nat

/-- Lines 110–114: the outer `except Exception` handler, degrading a raised
exception with message `m` into a 200 body. -/
def degradeBody (m : String) : SimpleBody :=
  ⟨false, .str ("暂时无法为你解卦：" ++ m ++ "\n请稍后重试，或检查网络连接"), some m⟩

/-- `divine` of `scripts/simple_api_server.py` (lines 36–114), as a function of
the request's `question`, the `COZE_API_KEY` environment value, the
caller-supplied `retry_times`, and the upstream behaviour per attempt. -/
def divineSimple (question : String) (apiKey : Option String) (retryTimes : Nat)
    (u : Nat → Upstream) : SimpleRun :=
  if question.isEmpty || pyStripIsEmpty question then
    ⟨.httpError 400 "问题不能为空", 0, []⟩
  else if !keyConfigured apiKey then
    ⟨.httpError 500 "后台API密钥未配置，请联系管理员", 0, []⟩
  else
    match runLoop u retryTimes with
    | (.success c, a, s) => ⟨.ok ⟨true, c, none⟩, a, s⟩
    | (.exc m, a, s) => ⟨.ok (degradeBody m), a, s⟩

/-! ## doubao_api_server.py, `POST /api/divine` -/

/-- The externally observable outcome of the doubao `divine`: a propagated
`HTTPException` (the generic `except Exception` handler at lines 156–164 uses a
dict detail, so `detail : JVal`), or a 200 response `{"success": b, "result": v}`. -/
inductive DOut where
  | httpError (status : Nat) (detail : JVal)
  | ok (success : Bool) (result : JVal)

/-- Lines 156–164: the outer `except Exception` handler — any exception that is
neither an `httpx.TimeoutException` nor an `HTTPException` becomes
`HTTPException(500, detail={"success": False, "error": f"解卦失败: {e}"})`. -/
def doubaoGenericFail (e : String) : DOut :=
  .httpError 500 (.obj [("success", .bool false), ("error", .str ("解卦失败: " ++ e))])

/-- `msg.get("type") == "answer"` for a dict `f`: the `type` field is present
and is the string `"answer"` (`.get` defaults to `None`, which is not equal to
any string). -/
def isAnswerType (f : List (String × JVal)) : Bool :=
  match List.lookup "type" f with
  | some v => v.isStrEq "answer"
  | none => false

/-- Lines 119–127: the scan `for msg in reversed(result["messages"])`, given the
already-reversed message list.  A message with `type == "answer"` and truthy
`content` (default `""`) returns that content; other messages are skipped; a
non-dict message raises `AttributeError` at `msg.get` (escaping to the generic
handler). -/
def findAnswer : List JVal → Except String (Option JVal)
  | [] => .ok none
  | m :: rest =>
    match m with
    | .obj f =>
      if isAnswerType f then
        let content := (List.lookup "content" f).getD (.str "")
        if content.jTruthy then .ok (some content) else findAnswer rest
      else findAnswer rest
    | _ => .error "object has no attribute get"

/-- Lines 117–142 of `doubao_api_server.py`: extraction from a parsed 200 body.

```
if "messages" in result and len(result["messages"]) > 0:
    for msg in reversed(result["messages"]):
        if msg.get("type") == "answer":
            content = msg.get("content", "")
            if content: return {"success": True, "result": content}
    if "content" in result:
        return {"success": True, "result": result["content"]}
    raise HTTPException(status_code=500, detail="AI返回了无效结果")
else:
    raise HTTPException(status_code=500, detail="AI返回了无效结果")
```

Dynamic-type errors (`in` on a non-container, `reversed`/`.get` on the wrong
type, subscripting a non-dict) escape to the generic handler. -/
def extractDoubao (j : JVal) : DOut :=
  match pyIn "messages" j with
  | .error e => doubaoGenericFail e
  | .ok false => .httpError 500 (.str "AI返回了无效结果")
  | .ok true =>
    match pySub j "messages" with
    | .error e => doubaoGenericFail e
    | .ok ms =>
      match pyLen ms with
      | .error e => doubaoGenericFail e
      | .ok 0 => .httpError 500 (.str "AI返回了无效结果")
      | .ok (_ + 1) =>
        match ms with
        | .arr msgs =>
          match findAnswer msgs.reverse with
          | .error e => doubaoGenericFail e
          | .ok (some c) => .ok true c
          | .ok none =>
            match pyIn "content" j with
            | .error e => doubaoGenericFail e
            | .ok true =>
              match pySub j "content" with
              | .error e => doubaoGenericFail e
              | .ok c => .ok true c
            | .ok false => .httpError 500 (.str "AI返回了无效结果")
        | _ => doubaoGenericFail "object has no attribute get"

/-- `divine` of `scripts/doubao_api_server.py` (lines 53–164), as a function of
the request fields, the `COZE_API_KEY` environment value, and the single
upstream interaction.  The second component counts upstream calls made (0 or 1),
witnessing which failures occur before any network activity.  Validation order
follows the source: question (line 69), numbers (line 72), credential
(line 76).  A timeout is caught at line 151 (`504`); any other
`httpx.RequestError` falls to the generic handler; a non-200 status re-raises
the upstream's own status (lines 143–149); a 200 body that fails to parse is a
500 (lines 110–112); a parsed body goes to `extractDoubao`. -/
def divineDoubao (question numbers : String) (apiKey : Option String)
    (u : Upstream) : DOut × Nat :=
  if question.isEmpty || pyStripIsEmpty question then
    (.httpError 400 (.str "问题不能为空"), 0)
  else if numbers.isEmpty || numbers.length != 6 then
    (.httpError 400 (.str "请输入6个数字"), 0)
  else if !keyConfigured apiKey then
    (.httpError 500 (.str "扣子API密钥未配置"), 0)
  else
    match u with
    | .timeoutError _ => (.httpError 504 (.str "AI服务请求超时，请稍后重试"), 1)
    | .requestError m => (doubaoGenericFail m, 1)
    | .resp status text body =>
      if status = 200 then
        match body with
        | .error e => (.httpError 500 (.str ("API返回格式错误: " ++ e)), 1)
        | .ok j => (extractDoubao j, 1)
      else (.httpError status (.str ("AI服务错误: " ++ text)), 1)

/-! ## Spec-side definitions used by amended claims -/

/-- Is the value a JSON object?  (Used to state well-formedness of message
lists.) -/
def JVal.isObj : JVal → Bool
  | .obj _ => true
  | _ => false

/-- Amended Shape A rule, following the spec's words for one message: a message
contributes an answer exactly when its type marks it as a final answer
(`"answer"`) and its `content` (defaulting to `""`) is non-empty. -/
def answerContent : JVal → Option JVal
  | .obj f =>
    if isAnswerType f then
      let c := (List.lookup "content" f).getD (.str "")
      if c.jTruthy then some c else none
    else none
  | _ => none

/-- `result["code"]` check passes: the field is absent or compares equal to 0. -/
def codeOkB (fs : List (String × JVal)) : Bool :=
  match List.lookup "code" fs with
  | none => true
  | some v => v.pyEqZero

/-! ## Helper lemmas -/

theorem stepOfBody_success_truthy {j c : JVal} (h : stepOfBody j = .success c) :
    c.jTruthy = true := by
  unfold stepOfBody at h
  repeat' split at h
  all_goals simp_all

theorem stepOf_success_truthy {x : Upstream} {c : JVal} (h : stepOf x = .success c) :
    c.jTruthy = true := by
  cases x with
  | timeoutError m => simp [stepOf] at h
  | requestError m => simp [stepOf] at h
  | resp st t b =>
    by_cases hst : st = 200
    · subst hst
      cases b with
      | error e => simp [stepOf] at h
      | ok j =>
        simp [stepOf] at h
        exact stepOfBody_success_truthy h
    · simp [stepOf, hst] at h

theorem loopAux_success (u : Nat → Upstream) :
    ∀ (left retry : Nat) (c : JVal) (a : Nat) (s : List Nat),
      loopAux u retry left = (.success c, a, s) → ∃ i, stepOf (u i) = .success c := by
  intro left
  induction left with
  | zero =>
    intro retry c a s h
    cases hs : stepOf (u retry) <;> simp [loopAux, hs] at h
    exact ⟨retry, by rw [hs, h.1]⟩
  | succ l ih =>
    intro retry c a s h
    cases hs : stepOf (u retry) with
    | success c' =>
      simp [loopAux, hs] at h
      exact ⟨retry, by rw [hs, h.1]⟩
    | fatal m => simp [loopAux, hs] at h
    | fallthrough =>
      rcases hr : loopAux u (retry + 1) l with ⟨o, a', s'⟩
      simp [loopAux, hs, hr] at h
      exact ih (retry + 1) c a' s' (by rw [hr, h.1])
    | transient m =>
      rcases hr : loopAux u (retry + 1) l with ⟨o, a', s'⟩
      simp [loopAux, hs, hr] at h
      exact ih (retry + 1) c a' s' (by rw [hr, h.1])

theorem loopAux_attempts_one_le (u : Nat → Upstream) :
    ∀ (left retry : Nat), 1 ≤ (loopAux u retry left).2.1 := by
  intro left
  induction left with
  | zero => intro retry; cases hs : stepOf (u retry) <;> simp [loopAux, hs]
  | succ l ih =>
    intro retry
    cases hs : stepOf (u retry) <;> simp [loopAux, hs]

theorem loopAux_transient (u : Nat → Upstream) :
    ∀ (left retry : Nat),
      (∀ i, retry ≤ i → i ≤ retry + left → (stepOf (u i)).isTransient = true) →
      loopAux u retry left =
        (.exc ((stepOf (u (retry + left))).excMsg), left + 1,
          (List.range' retry left).map (2 ^ ·)) := by
  intro left
  induction left with
  | zero =>
    intro retry h
    have h0 := h retry le_rfl (by omega)
    cases hs : stepOf (u retry) <;> rw [hs] at h0 <;> simp [Step.isTransient] at h0
    simp [loopAux, hs, Step.excMsg]
  | succ l ih =>
    intro retry h
    have h0 := h retry le_rfl (by omega)
    cases hs : stepOf (u retry) <;> rw [hs] at h0 <;> simp [Step.isTransient] at h0
    have hrec := ih (retry + 1) (fun i h1 h2 => h i (by omega) (by omega))
    have harith : retry + 1 + l = retry + (l + 1) := by omega
    rw [harith] at hrec
    simp [loopAux, hs, hrec, List.range'_succ]

theorem loopAux_fallthrough (u : Nat → Upstream) :
    ∀ (left retry : Nat),
      (∀ i, retry ≤ i → i ≤ retry + left → stepOf (u i) = .fallthrough) →
      loopAux u retry left = (.exc "多次调用扣子API失败，请稍后再试", left + 1, []) := by
  intro left
  induction left with
  | zero =>
    intro retry h
    simp [loopAux, h retry le_rfl (by omega)]
  | succ l ih =>
    intro retry h
    have hrec := ih (retry + 1) (fun i h1 h2 => h i (by omega) (by omega))
    simp [loopAux, h retry le_rfl (by omega), hrec]

theorem findAnswer_eq_findSome :
    ∀ {l : List JVal}, (∀ m ∈ l, m.isObj = true) →
      findAnswer l = .ok (l.findSome? answerContent) := by
  intro l
  induction l with
  | nil => intro _; simp [findAnswer, List.findSome?]
  | cons m rest ih =>
    intro h
    have hm := h m (List.mem_cons_self m rest)
    have hrest := ih (fun x hx => h x (List.mem_cons_of_mem m hx))
    cases m with
    | obj f =>
      rw [List.findSome?_cons]
      by_cases ha : isAnswerType f
      · by_cases ht : ((List.lookup "content" f).getD (.str "")).jTruthy
        · simp [findAnswer, answerContent, ha, ht]
        · simp [findAnswer, answerContent, ha, ht, hrest]
      · simp [findAnswer, answerContent, ha, hrest]
    | null => simp [JVal.isObj] at hm
    | bool b => simp [JVal.isObj] at hm
    | num n => simp [JVal.isObj] at hm
    | str s => simp [JVal.isObj] at hm
    | arr xs => simp [JVal.isObj] at hm

theorem stepOfBody_obj_codeOk {fs : List (String × JVal)} (h : codeOkB fs = true) :
    stepOfBody (.obj fs) =
      match List.lookup "choices" fs with
      | none => .fatal "扣子返回无有效结果"
      | some ch =>
        match pyLen ch with
        | .error e => .fatal e
        | .ok 0 => .fatal "扣子返回无有效结果"
        | .ok (_ + 1) =>
          match pyIdx0 ch >>= (pySub · "message") >>= (pySub · "content") with
          | .error e => .fatal e
          | .ok content => if content.jTruthy then .success content else .fallthrough := by
  unfold codeOkB at h
  unfold stepOfBody
  cases hcode : List.lookup "code" fs with
  | none =>
    cases hch : List.lookup "choices" fs with
    | none => simp [pyIn, hcode, hch]
    | some ch => simp [pyIn, pySub, hcode, hch]
  | some v =>
    rw [hcode] at h
    have h' : v.pyEqZero = true := h
    cases hch : List.lookup "choices" fs with
    | none => simp [pyIn, pySub, hcode, hch, h', Except.map]
    | some ch => simp [pyIn, pySub, hcode, hch, h', Except.map]

theorem divineSimple_valid {q : String} {key : Option String} {rt : Nat} {u : Nat → Upstream}
    (hq : (q.isEmpty || pyStripIsEmpty q) = false) (hk : keyConfigured key = true) :
    divineSimple q key rt u =
      match runLoop u rt with
      | (.success c, a, s) => ⟨.ok ⟨true, c, none⟩, a, s⟩
      | (.exc m, a, s) => ⟨.ok (degradeBody m), a, s⟩ := by
  simp [divineSimple, hq, hk]

/-! ## Claims -/

/-- C3: with `max_attempts = retry_times + 1`, a persistent transient failure
(non-200 status or transport-level `httpx.RequestError` on every attempt)
makes `divine` perform exactly `retry_times + 1` upstream call attempts and
sleep exactly `2^0, 2^1, …, 2^(retry_times-1)` time units between consecutive
attempts, with no sleep after the final attempt; the final outcome is the
degraded body carrying the last attempt's error message. -/
theorem retry_backoff_schedule (q : String) (key : Option String) (rt : Nat)
    (u : Nat → Upstream)
    (hq : (q.isEmpty || pyStripIsEmpty q) = false) (hk : keyConfigured key = true)
    (ht : ∀ i, i ≤ rt → (stepOf (u i)).isTransient = true) :
    divineSimple q key rt u =
      ⟨.ok (degradeBody ((stepOf (u rt)).excMsg)), rt + 1, (List.range rt).map (2 ^ ·)⟩ := by
  have h := loopAux_transient u rt 0 (fun i h1 h2 => ht i (by omega))
  rw [Nat.zero_add] at h
  rw [divineSimple_valid hq hk]
  simp [runLoop, h, List.range_eq_range']

/-- Witness for C3: `retry_times = 2` against an upstream that answers HTTP 500
on every attempt — 3 calls, sleeps `[1, 2]`, degraded result. -/
theorem retry_backoff_schedule_witness :
    divineSimple "测试" (some "k") 2 (fun _ => .resp 500 "err" (.ok .null)) =
      ⟨.ok (degradeBody "扣子API返回错误状态码：500"), 3, [1, 2]⟩ := by
  have h := retry_backoff_schedule "测试" (some "k") 2 (fun _ => .resp 500 "err" (.ok .null))
    (by decide) rfl (fun i _ => rfl)
  exact h

/-- C1 counterexample: in the doubao variant, with a valid question, valid
numbers and a configured credential, an upstream timeout (an upstream-caused
failure) surfaces as HTTP 504 — an error status, not a transport-success
`success:false` body. -/
theorem doubao_timeout_counterexample :
    divineDoubao "问事业" "123456" (some "k") (.timeoutError "timed out") =
      (.httpError 504 (.str "AI服务请求超时，请稍后重试"), 1) ∧
    ∀ (b : Bool) (r : JVal) (n : Nat),
      divineDoubao "问事业" "123456" (some "k") (.timeoutError "timed out") ≠ (.ok b r, n) := by
  refine ⟨rfl, ?_⟩
  intro b r n h
  rw [show divineDoubao "问事业" "123456" (some "k") (.timeoutError "timed out") =
    (.httpError 504 (.str "AI服务请求超时，请稍后重试"), 1) from rfl] at h
  simp at h

/-- C1 (amended): in the simple variant the claim holds — for every request
with a valid question and a configured credential, the handler always returns
a transport-success (200) body, and whenever the retry loop ends in a raised
exception (exhausted retries or any upstream-caused failure) that body has
`success = false` with the error detail; the doubao variant instead propagates
upstream-caused failures as HTTP error statuses: 504 on timeout, a generic 500
on other transport errors, and the upstream's own status on a non-200
response. -/
theorem degradation_policy_amended :
    (∀ (q : String) (key : Option String) (rt : Nat) (u : Nat → Upstream),
      (q.isEmpty || pyStripIsEmpty q) = false → keyConfigured key = true →
      (∃ b, (divineSimple q key rt u).out = .ok b) ∧
      (∀ m a s, runLoop u rt = (.exc m, a, s) →
        (divineSimple q key rt u).out = .ok (degradeBody m))) ∧
    (∀ (q n : String) (key : Option String) (m : String),
      (q.isEmpty || pyStripIsEmpty q) = false → (n.isEmpty || n.length != 6) = false →
      keyConfigured key = true →
      divineDoubao q n key (.timeoutError m) =
        (.httpError 504 (.str "AI服务请求超时，请稍后重试"), 1) ∧
      divineDoubao q n key (.requestError m) = (doubaoGenericFail m, 1)) ∧
    (∀ (q n : String) (key : Option String) (st : Nat) (t : String)
        (b : Except String JVal),
      (q.isEmpty || pyStripIsEmpty q) = false → (n.isEmpty || n.length != 6) = false →
      keyConfigured key = true → st ≠ 200 →
      divineDoubao q n key (.resp st t b) =
        (.httpError st (.str ("AI服务错误: " ++ t)), 1)) := by
  refine ⟨?_, ?_, ?_⟩
  · intro q key rt u hq hk
    constructor
    · rcases hr : runLoop u rt with ⟨o, a, s⟩
      cases o with
      | success c => exact ⟨⟨true, c, none⟩, by rw [divineSimple_valid hq hk, hr]⟩
      | exc m => exact ⟨degradeBody m, by rw [divineSimple_valid hq hk, hr]⟩
    · intro m a s h
      rw [divineSimple_valid hq hk, h]
  · intro q n key m hq hn hk
    constructor <;> simp [divineDoubao, hq, hn, hk]
  · intro q n key st t b hq hn hk hst
    simp [divineDoubao, hq, hn, hk, hst]

/-- Witness for C1 (amended): simple variant, credential configured, upstream
always times out with `retry_times = 0` — the handler returns a 200 body with
`success = false`. -/
theorem degradation_policy_amended_witness :
    (divineSimple "问" (some "k") 0 (fun _ => .timeoutError "t")).out =
      .ok (degradeBody "网络请求失败：t") := by
  exact (degradation_policy_amended.1 "问" (some "k") 0 (fun _ => .timeoutError "t")
    (by decide) rfl).2 "网络请求失败：t" 1 [] rfl

/-- C2 counterexample: `retry_times = 2` (attempts remaining), upstream answers
HTTP 200 with a non-zero application `code` on the first attempt — the handler
terminates immediately with the degraded body after exactly 1 attempt and no
backoff sleep, instead of retrying. -/
theorem app_error_code_counterexample :
    divineSimple "问" (some "k") 2
        (fun _ => .resp 200 "" (.ok (.obj [("code", .num 702242002), ("msg", .str "boom")]))) =
      ⟨.ok (degradeBody "扣子平台故障：boom"), 1, []⟩ := by
  rfl

/-- C2 (amended): an HTTP-200 response whose body carries a non-zero
application-level `code` is terminal, not retryable: the raised platform-fault
exception escapes the retry loop at once, so the handler degrades with exactly
one upstream attempt and no backoff sleep, regardless of how many attempts
remain. -/
theorem app_error_code_terminal (q : String) (key : Option String) (rt : Nat)
    (u : Nat → Upstream) (fs : List (String × JVal)) (v : JVal) (t : String)
    (hq : (q.isEmpty || pyStripIsEmpty q) = false) (hk : keyConfigured key = true)
    (h0 : u 0 = .resp 200 t (.ok (.obj fs)))
    (hc : List.lookup "code" fs = some v) (hnz : v.pyEqZero = false) :
    divineSimple q key rt u =
      ⟨.ok (degradeBody
        ("扣子平台故障：" ++ pyStr ((List.lookup "msg" fs).getD (.str "未知错误")))), 1, []⟩ := by
  have hstep : stepOf (u 0) =
      .fatal ("扣子平台故障：" ++ pyStr ((List.lookup "msg" fs).getD (.str "未知错误"))) := by
    rw [h0]
    simp [stepOf, stepOfBody, pyIn, hc, pySub, hnz, pyGetD, Except.map]
  rw [divineSimple_valid hq hk]
  cases rt <;> simp [runLoop, loopAux, hstep]

/-- Witness for C2 (amended): the concrete platform-fault body
`{"code": 702242002, "msg": "boom"}` with `retry_times = 1`. -/
theorem app_error_code_terminal_witness :
    divineSimple "问" (some "k") 1
        (fun _ => .resp 200 "" (.ok (.obj [("code", .num 702242002), ("msg", .str "boom")]))) =
      ⟨.ok (degradeBody "扣子平台故障：boom"), 1, []⟩ := by
  exact app_error_code_terminal "问" (some "k") 1
    (fun _ => .resp 200 "" (.ok (.obj [("code", .num 702242002), ("msg", .str "boom")])))
    [("code", .num 702242002), ("msg", .str "boom")] (.num 702242002) ""
    (by decide) rfl rfl rfl rfl

/-- C5 counterexample: in the doubao variant a request whose question is
non-empty still fails with a 4xx validation error (from the `numbers` length
check), so the question check is not the only validation producing a
client-visible 4xx. -/
theorem numbers_validation_counterexample :
    divineDoubao "问事业" "12345" (some "k") (.resp 200 "" (.ok (.obj []))) =
      (.httpError 400 (.str "请输入6个数字"), 0) := by
  rfl

/-- C5 (amended): an empty or all-whitespace question yields a 400
`InvalidInput` before any upstream call, independent of the other fields, in
both variants; in the simple variant a non-empty question never produces a
4xx (any propagated error status there is the 500 configuration error); the
doubao variant additionally rejects a `numbers` field that is missing or not
exactly 6 characters with a 400, also before any upstream call. -/
theorem validation_amended :
    (∀ (q : String) (key : Option String) (rt : Nat) (u : Nat → Upstream),
      (q.isEmpty || pyStripIsEmpty q) = true →
      divineSimple q key rt u = ⟨.httpError 400 "问题不能为空", 0, []⟩) ∧
    (∀ (q n : String) (key : Option String) (u : Upstream),
      (q.isEmpty || pyStripIsEmpty q) = true →
      divineDoubao q n key u = (.httpError 400 (.str "问题不能为空"), 0)) ∧
    (∀ (q : String) (key : Option String) (rt : Nat) (u : Nat → Upstream),
      (q.isEmpty || pyStripIsEmpty q) = false →
      ∀ st d, (divineSimple q key rt u).out = .httpError st d → st = 500) ∧
    (∀ (q n : String) (key : Option String) (u : Upstream),
      (q.isEmpty || pyStripIsEmpty q) = false → (n.isEmpty || n.length != 6) = true →
      divineDoubao q n key u = (.httpError 400 (.str "请输入6个数字"), 0)) := by
  refine ⟨?_, ?_, ?_, ?_⟩
  · intro q key rt u hq
    simp [divineSimple, hq]
  · intro q n key u hq
    simp [divineDoubao, hq]
  · intro q key rt u hq st d h
    by_cases hk : keyConfigured key
    · rw [divineSimple_valid hq hk] at h
      rcases hr : runLoop u rt with ⟨o, a, s⟩
      rw [hr] at h
      cases o <;> simp at h
    · simp [divineSimple, hq, hk] at h
      omega
  · intro q n key u hq hn
    simp [divineDoubao, hq, hn]

/-- Witness for C5 (amended): an all-whitespace question is rejected with 400
before any upstream call in the simple variant. -/
theorem validation_amended_witness :
    divineSimple "  " (some "k") 2 (fun _ => .resp 500 "e" (.ok .null)) =
      ⟨.httpError 400 "问题不能为空", 0, []⟩ := by
  exact validation_amended.1 "  " (some "k") 2 (fun _ => .resp 500 "e" (.ok .null)) (by decide)

/-- C9 counterexample: a doubao request with a valid (non-empty) question and
no configured credential fails with 400 (the numbers validation), not with the
500 server-configuration error the claim requires. -/
theorem config_error_counterexample :
    divineDoubao "问" "" none (.resp 200 "" (.ok (.obj []))) =
      (.httpError 400 (.str "请输入6个数字"), 0) ∧
    ∀ d : JVal, divineDoubao "问" "" none (.resp 200 "" (.ok (.obj []))) ≠
      (.httpError 500 d, 0) := by
  refine ⟨rfl, ?_⟩
  intro d h
  rw [show divineDoubao "问" "" none (.resp 200 "" (.ok (.obj []))) =
    (.httpError 400 (.str "请输入6个数字"), 0) from rfl] at h
  simp at h

/-- C9 (amended): for every request with a valid question — and, in the doubao
variant, a valid 6-character `numbers` field — a missing credential makes the
handler fail with the 500 server-configuration error before any upstream call
(0 attempts), never as a degraded `success:false` transport-success
response. -/
theorem config_error_amended :
    (∀ (q : String) (key : Option String) (rt : Nat) (u : Nat → Upstream),
      (q.isEmpty || pyStripIsEmpty q) = false → keyConfigured key = false →
      divineSimple q key rt u = ⟨.httpError 500 "后台API密钥未配置，请联系管理员", 0, []⟩) ∧
    (∀ (q n : String) (key : Option String) (u : Upstream),
      (q.isEmpty || pyStripIsEmpty q) = false → (n.isEmpty || n.length != 6) = false →
      keyConfigured key = false →
      divineDoubao q n key u = (.httpError 500 (.str "扣子API密钥未配置"), 0)) := by
  constructor
  · intro q key rt u hq hk
    simp [divineSimple, hq, hk]
  · intro q n key u hq hn hk
    simp [divineDoubao, hq, hn, hk]

/-- Witness for C9 (amended): valid question, credential unset (`None`). -/
theorem config_error_amended_witness :
    divineSimple "问" none 2 (fun _ => .resp 200 "" (.ok .null)) =
      ⟨.httpError 500 "后台API密钥未配置，请联系管理员", 0, []⟩ := by
  exact config_error_amended.1 "问" none 2 (fun _ => .resp 200 "" (.ok .null)) (by decide) rfl

/-- Helper: attempts and sleeps of a valid `divine` call are those of its retry
loop, whatever the loop outcome. -/
theorem divineSimple_attempts_sleeps {q : String} {key : Option String} {rt : Nat}
    {u : Nat → Upstream}
    (hq : (q.isEmpty || pyStripIsEmpty q) = false) (hk : keyConfigured key = true) :
    (divineSimple q key rt u).attempts = (runLoop u rt).2.1 ∧
    (divineSimple q key rt u).sleeps = (runLoop u rt).2.2 := by
  rw [divineSimple_valid hq hk]
  rcases runLoop u rt with ⟨o, a, s⟩
  cases o <;> simp

/-- C6 counterexample: a 200 body whose first choice's `message.content` is
present but empty does not make extraction fail with `NoAnswerFound`
(`扣子返回无有效结果`) — the attempt is a silent fallthrough, and with
attempts remaining the handler proceeds to the next attempt and can even
succeed: here attempt 0 has empty content, attempt 1 answers `"y"`, and the
request succeeds after 2 attempts instead of failing. -/
theorem empty_content_not_noanswer_counterexample :
    stepOfBody (.obj [("choices", .arr [.obj [("message", .obj [("content", .str "")])]])]) =
      .fallthrough ∧
    stepOfBody (.obj [("choices", .arr [.obj [("message", .obj [("content", .str "")])]])]) ≠
      .fatal "扣子返回无有效结果" ∧
    divineSimple "卦" (some "k") 1
        (fun i => if i = 0 then
          .resp 200 ""
            (.ok (.obj [("choices", .arr [.obj [("message", .obj [("content", .str "")])]])]))
        else
          .resp 200 ""
            (.ok (.obj [("choices", .arr [.obj [("message", .obj [("content", .str "y")])]])]))) =
      ⟨.ok ⟨true, .str "y", none⟩, 2, []⟩ := by
  refine ⟨rfl, ?_, rfl⟩
  intro h
  rw [show stepOfBody
      (.obj [("choices", .arr [.obj [("message", .obj [("content", .str "")])]])]) =
      .fallthrough from rfl] at h
  simp at h

/-- C6 (amended): Shape B extraction in the simple variant's loop body, with
the application code check passing: (i) a non-empty `choices` list whose first
choice's `message.content` is truthy yields that content as the successful
answer; (ii) an absent or empty `choices` sequence is the extraction failure
`扣子返回无有效结果` (`NoAnswerFound`); (iii) an absent `message`/`content`
field is an extraction failure carrying the Python error text; (iv) a
present-but-falsy (for example empty) `content` is neither a success nor the
`NoAnswerFound` failure — the attempt is a silent fallthrough to the next
attempt; (v) globally, a successful attempt never carries an empty (falsy)
answer. -/
theorem shapeB_extraction :
    (∀ (fs : List (String × JVal)) (c0 : JVal) (rest : List JVal) (ct : JVal),
      codeOkB fs = true →
      List.lookup "choices" fs = some (.arr (c0 :: rest)) →
      (pySub c0 "message" >>= (pySub · "content")) = .ok ct → ct.jTruthy = true →
      stepOfBody (.obj fs) = .success ct) ∧
    (∀ fs : List (String × JVal), codeOkB fs = true →
      (List.lookup "choices" fs = none ∨ List.lookup "choices" fs = some (.arr [])) →
      stepOfBody (.obj fs) = .fatal "扣子返回无有效结果") ∧
    (∀ (fs : List (String × JVal)) (c0 : JVal) (rest : List JVal) (e : String),
      codeOkB fs = true →
      List.lookup "choices" fs = some (.arr (c0 :: rest)) →
      (pySub c0 "message" >>= (pySub · "content")) = .error e →
      stepOfBody (.obj fs) = .fatal e) ∧
    (∀ (fs : List (String × JVal)) (c0 : JVal) (rest : List JVal) (ct : JVal),
      codeOkB fs = true →
      List.lookup "choices" fs = some (.arr (c0 :: rest)) →
      (pySub c0 "message" >>= (pySub · "content")) = .ok ct → ct.jTruthy = false →
      stepOfBody (.obj fs) = .fallthrough ∧
      stepOfBody (.obj fs) ≠ .success ct ∧
      stepOfBody (.obj fs) ≠ .fatal "扣子返回无有效结果") ∧
    (∀ (j c : JVal), stepOfBody j = .success c → c.jTruthy = true) := by
  refine ⟨?_, ?_, ?_, ?_, fun j c h => stepOfBody_success_truthy h⟩
  · intro fs c0 rest ct hcode hch hchain htr
    rw [stepOfBody_obj_codeOk hcode, hch]
    simp [pyLen, pyIdx0, Bind.bind, Except.bind] at hchain ⊢
    rw [hchain]
    simp [htr]
  · intro fs hcode hch
    rcases hch with hch | hch <;> (rw [stepOfBody_obj_codeOk hcode, hch]; try simp [pyLen])
  · intro fs c0 rest e hcode hch hchain
    rw [stepOfBody_obj_codeOk hcode, hch]
    simp [pyLen, pyIdx0, Bind.bind, Except.bind] at hchain ⊢
    rw [hchain]
  · intro fs c0 rest ct hcode hch hchain htr
    have hf : stepOfBody (.obj fs) = .fallthrough := by
      rw [stepOfBody_obj_codeOk hcode, hch]
      simp [pyLen, pyIdx0, Bind.bind, Except.bind] at hchain ⊢
      rw [hchain]
      simp [htr]
    refine ⟨hf, ?_, ?_⟩ <;> rw [hf] <;> simp

/-- Witness for C6: the spec's Shape B example body
`{"choices":[{"message":{"content":"y"}}]}` extracts `"y"`. -/
theorem shapeB_extraction_witness :
    stepOfBody (.obj [("choices", .arr [.obj [("message", .obj [("content", .str "y")])]])]) =
      .success (.str "y") := by
  exact shapeB_extraction.1 [("choices", .arr [.obj [("message", .obj [("content", .str "y")])]])]
    (.obj [("message", .obj [("content", .str "y")])]) [] (.str "y") rfl rfl rfl rfl

/-- C7 counterexample: a 200 response with a present-but-empty `content`
(`{"choices":[{"message":{"content":""}}]}`), which the claim classes as a
one-shot extraction failure, is in fact followed by a further upstream attempt:
with `retry_times = 1` the handler makes 2 attempts before degrading. -/
theorem empty_content_retry_counterexample :
    divineSimple "问" (some "k") 1
        (fun _ => .resp 200 ""
          (.ok (.obj [("choices", .arr [.obj [("message", .obj [("content", .str "")])]])]))) =
      ⟨.ok (degradeBody "多次调用扣子API失败，请稍后再试"), 2, []⟩ := by
  rfl

/-- C7 (amended): a malformed-but-200 response whose handling raises — an
unparsable body, a top-level non-object, a missing or empty `choices`
sequence, or a missing `message`/`content` field — is not retried: the raised
exception escapes the loop at once, giving the degraded `success:false` result
after exactly 1 attempt with no backoff sleep; by exception, a 200 response
whose extracted `content` is present but empty does lead to a further upstream
attempt (still with no backoff sleep before it). -/
theorem malformed_no_retry_amended :
    (∀ (q : String) (key : Option String) (rt : Nat) (u : Nat → Upstream) (m : String),
      (q.isEmpty || pyStripIsEmpty q) = false → keyConfigured key = true →
      stepOf (u 0) = .fatal m →
      divineSimple q key rt u = ⟨.ok (degradeBody m), 1, []⟩) ∧
    (∀ (q : String) (key : Option String) (rt : Nat) (u : Nat → Upstream),
      (q.isEmpty || pyStripIsEmpty q) = false → keyConfigured key = true →
      stepOf (u 0) = .fallthrough → 0 < rt →
      (divineSimple q key rt u).attempts = (loopAux u 1 (rt - 1)).2.1 + 1 ∧
      (divineSimple q key rt u).sleeps = (loopAux u 1 (rt - 1)).2.2 ∧
      2 ≤ (divineSimple q key rt u).attempts) := by
  constructor
  · intro q key rt u m hq hk hstep
    rw [divineSimple_valid hq hk]
    cases rt <;> simp [runLoop, loopAux, hstep]
  · intro q key rt u hq hk hstep hrt
    obtain ⟨l, rfl⟩ : ∃ l, rt = l + 1 := ⟨rt - 1, by omega⟩
    obtain ⟨ha, hs⟩ := @divineSimple_attempts_sleeps q key (l + 1) u hq hk
    rw [ha, hs]
    have hl : runLoop u (l + 1) =
        ((loopAux u 1 l).1, (loopAux u 1 l).2.1 + 1, (loopAux u 1 l).2.2) := by
      simp [runLoop, loopAux, hstep]
    rw [hl]
    refine ⟨by simp, by simp, ?_⟩
    have := loopAux_attempts_one_le u l 1
    simp
    omega

/-- Witness for C7 (amended): a 200 response with an unparsable body degrades
after exactly one attempt and no sleep, even with `retry_times = 3`. -/
theorem malformed_no_retry_amended_witness :
    divineSimple "问" (some "k") 3
        (fun _ => .resp 200 "bad" (.error "Expecting value: line 1 column 1 (char 0)")) =
      ⟨.ok (degradeBody "Expecting value: line 1 column 1 (char 0)"), 1, []⟩ := by
  exact malformed_no_retry_amended.1 "问" (some "k") 3
    (fun _ => .resp 200 "bad" (.error "Expecting value: line 1 column 1 (char 0)"))
    "Expecting value: line 1 column 1 (char 0)" (by decide) rfl rfl

/-- C10: an HTTP-200 attempt whose body passes the code check and has a
non-empty `choices` list but whose first choice's `message.content` is falsy
(for example the empty string) neither succeeds nor raises — it is classified
as a silent fallthrough — and a run in which every one of the
`retry_times + 1` attempts ends this way performs all `retry_times + 1`
attempts with no backoff sleep at all and returns the degraded
`success:false` body carrying the generic exhausted-retries message. -/
theorem empty_content_fallthrough :
    (∀ (fs : List (String × JVal)) (c0 : JVal) (rest : List JVal) (ct : JVal),
      codeOkB fs = true →
      List.lookup "choices" fs = some (.arr (c0 :: rest)) →
      (pySub c0 "message" >>= (pySub · "content")) = .ok ct → ct.jTruthy = false →
      stepOfBody (.obj fs) = .fallthrough) ∧
    (∀ (q : String) (key : Option String) (rt : Nat) (u : Nat → Upstream),
      (q.isEmpty || pyStripIsEmpty q) = false → keyConfigured key = true →
      (∀ i, i ≤ rt → stepOf (u i) = .fallthrough) →
      divineSimple q key rt u =
        ⟨.ok (degradeBody "多次调用扣子API失败，请稍后再试"), rt + 1, []⟩) := by
  constructor
  · intro fs c0 rest ct hcode hch hchain htr
    rw [stepOfBody_obj_codeOk hcode, hch]
    simp [pyLen, pyIdx0, Bind.bind, Except.bind] at hchain ⊢
    rw [hchain]
    simp [htr]
  · intro q key rt u hq hk hstep
    rw [divineSimple_valid hq hk]
    have h := loopAux_fallthrough u rt 0 (fun i h1 h2 => hstep i (by omega))
    simp [runLoop, h]

/-- Witness for C10: `retry_times = 1`, every attempt returns 200 with an
empty `content` — 2 attempts, no sleeps, generic exhausted-retries
degradation. -/
theorem empty_content_fallthrough_witness :
    divineSimple "求卦" (some "k") 1
        (fun _ => .resp 200 ""
          (.ok (.obj [("choices", .arr [.obj [("message", .obj [("content", .str "")])]])]))) =
      ⟨.ok (degradeBody "多次调用扣子API失败，请稍后再试"), 2, []⟩ := by
  exact empty_content_fallthrough.2 "求卦" (some "k") 1
    (fun _ => .resp 200 ""
      (.ok (.obj [("choices", .arr [.obj [("message", .obj [("content", .str "")])]])])))
    (by decide) rfl (fun i _ => rfl)

/-- C4 counterexample: a Shape A payload whose messages contain no
`"answer"`-typed message but which has a top-level `content` field — the claim
says extraction must fail with `NoAnswerFound`, yet the doubao handler returns
it as a success. -/
theorem shapeA_fallback_counterexample :
    divineDoubao "问" "123456" (some "k")
        (.resp 200 "" (.ok (.obj
          [("messages", .arr [.obj [("type", .str "think"), ("content", .str "x")]]),
           ("content", .str "fallback")]))) = (.ok true (.str "fallback"), 1) ∧
    ∀ (st : Nat) (d : JVal),
      divineDoubao "问" "123456" (some "k")
          (.resp 200 "" (.ok (.obj
            [("messages", .arr [.obj [("type", .str "think"), ("content", .str "x")]]),
             ("content", .str "fallback")]))) ≠ (.httpError st d, 1) := by
  refine ⟨rfl, ?_⟩
  intro st d h
  rw [show divineDoubao "问" "123456" (some "k")
      (.resp 200 "" (.ok (.obj
        [("messages", .arr [.obj [("type", .str "think"), ("content", .str "x")]]),
         ("content", .str "fallback")]))) = (.ok true (.str "fallback"), 1) from rfl] at h
  simp at h

/-- C4 (amended): on a Shape A payload whose `messages` is a non-empty
sequence of message objects, the extractor scans from the end backward and
returns the `content` of the first message whose type is `"answer"` and whose
content is non-empty; when no such message exists it does not fail directly
but falls back to the payload's top-level `content` field, returning its value
(even if empty) as a success; extraction fails with the `NoAnswerFound` error
only when that fallback field is also absent. -/
theorem shapeA_extraction_amended (fs : List (String × JVal)) (msgs : List JVal)
    (hm : List.lookup "messages" fs = some (.arr msgs)) (hne : msgs ≠ [])
    (hobj : msgs.all JVal.isObj = true) :
    extractDoubao (.obj fs) =
      match msgs.reverse.findSome? answerContent with
      | some c => DOut.ok true c
      | none =>
        match List.lookup "content" fs with
        | some tc => DOut.ok true tc
        | none => DOut.httpError 500 (.str "AI返回了无效结果") := by
  have hobj' : ∀ m ∈ msgs.reverse, m.isObj = true := by
    intro m hmem
    exact List.all_eq_true.mp hobj m (List.mem_reverse.mp hmem)
  have hfa := findAnswer_eq_findSome hobj'
  unfold extractDoubao
  rcases msgs with _ | ⟨m0, ms⟩
  · exact absurd rfl hne
  · simp only [pyIn, hm, Option.isSome_some, pySub, pyLen, List.length_cons]
    rw [hfa]
    rcases (m0 :: ms).reverse.findSome? answerContent with _ | c
    · cases hc : List.lookup "content" fs <;> simp [hc]
    · simp

/-- Witness for C4 (amended): the spec's Shape A example
`{"messages":[{"type":"think","content":"x"},{"type":"answer","content":"final"}]}`
extracts `"final"`. -/
theorem shapeA_extraction_amended_witness :
    extractDoubao (.obj
      [("messages", .arr [.obj [("type", .str "think"), ("content", .str "x")],
                          .obj [("type", .str "answer"), ("content", .str "final")]])]) =
      .ok true (.str "final") := by
  have h := shapeA_extraction_amended
    [("messages", .arr [.obj [("type", .str "think"), ("content", .str "x")],
                        .obj [("type", .str "answer"), ("content", .str "final")]])]
    [.obj [("type", .str "think"), ("content", .str "x")],
     .obj [("type", .str "answer"), ("content", .str "final")]]
    rfl (by simp) rfl
  exact h

/-- C8: with a valid question, a configured credential, and an upstream
conforming to the documented Shape B interface (any extractable answer is a
string), every result crossing the boundary is a single, fully-filled
200-body: `success = true` implies `final_result` is a non-empty string and no
`error_detail`; `success = false` implies `error_detail` is present and
`final_result` is the degraded placeholder string built from it. -/
theorem result_shape_invariant (q : String) (key : Option String) (rt : Nat)
    (u : Nat → Upstream)
    (hq : (q.isEmpty || pyStripIsEmpty q) = false) (hk : keyConfigured key = true)
    (hconf : ∀ i c, stepOf (u i) = .success c → ∃ s, c = .str s) :
    ∃ b, (divineSimple q key rt u).out = .ok b ∧
      (b.success = true →
        ∃ s, b.final_result = .str s ∧ s ≠ "" ∧ b.error_detail = none) ∧
      (b.success = false →
        ∃ m, b.error_detail = some m ∧
          b.final_result = .str ("暂时无法为你解卦：" ++ m ++ "\n请稍后重试，或检查网络连接")) := by
  rcases hr : runLoop u rt with ⟨o, a, s⟩
  cases o with
  | success c =>
    obtain ⟨i, hi⟩ := loopAux_success u rt 0 c a s hr
    obtain ⟨sc, rfl⟩ := hconf i c hi
    have ht : (JVal.str sc).jTruthy = true := stepOf_success_truthy hi
    refine ⟨⟨true, .str sc, none⟩, by rw [divineSimple_valid hq hk, hr], ?_, by simp⟩
    intro _
    refine ⟨sc, rfl, ?_, rfl⟩
    intro hemp
    subst hemp
    exact absurd ht (by decide)
  | exc m =>
    refine ⟨degradeBody m, by rw [divineSimple_valid hq hk, hr], by simp [degradeBody], ?_⟩
    intro _
    exact ⟨m, rfl, rfl⟩

/-- Witness for C8: a conforming upstream answering `"y"` on the first
attempt. -/
theorem result_shape_invariant_witness :
    ∃ b, (divineSimple "问" (some "k") 0
        (fun _ => .resp 200 ""
          (.ok (.obj [("choices", .arr [.obj [("message", .obj [("content", .str "y")])]])])))).out =
      .ok b ∧
      (b.success = true →
        ∃ s, b.final_result = .str s ∧ s ≠ "" ∧ b.error_detail = none) ∧
      (b.success = false →
        ∃ m, b.error_detail = some m ∧
          b.final_result = .str ("暂时无法为你解卦：" ++ m ++ "\n请稍后重试，或检查网络连接")) := by
  refine result_shape_invariant "问" (some "k") 0 _ (by decide) rfl ?_
  intro i c h
  have hstep : stepOf ((fun _ : Nat => Upstream.resp 200 ""
      (.ok (.obj [("choices", .arr [.obj [("message", .obj [("content", .str "y")])]])]))) i) =
      .success (.str "y") := rfl
  rw [hstep] at h
  exact ⟨"y", by cases h; rfl⟩
